import Mathlib

/-!
Verification development for the webnovel-tl repository.

The definitions below are a shallow embedding of the concurrency and
pipeline code of the repository:

* `src/src/lib/promise-pool.ts` — the `PromisePool` class, embedded as a
  deterministic event-loop simulator (`SimState`, `runPool`).  JavaScript
  is single threaded and cooperative, so the pool is modelled as explicit
  state passing; task durations drive a discrete-event completion order.
* `src/src/translate_ds.ts` — `translateChapterWithRetry` (retry loop with
  backoff), `translateChapter` (stream accumulation), `extractTranslation`
  (trim) and the scan loop of `processSeries` (range filter plus
  skip-if-artifact-exists).

Machine numbers are modelled as `Nat` where the source only ever uses
non-negative integers, and as `Rat` for the concurrency-limit check where
the JavaScript `number` may be fractional.
-/

namespace WebnovelTL

/-- A task handed to the pool: its simulated duration in milliseconds and
whether the underlying promise rejects.  The pool itself treats tasks as
opaque (`type Task = () => Promise of any`). -/
structure PoolTask where
  dur : Nat
  fails : Bool
deriving DecidableEq, Repr

/-- The private fields of the `PromisePool` class (promise-pool.ts lines
3-8).  Promises are identified by the numeric id of the task they belong
to; `running` embeds `runningTasks : Set of Promise` (insertion ordered,
no duplicates), `queue` embeds `taskQueue` (each stored thunk returns the
already-created promise of that task, line 52).  `drainRequested` is true
exactly when `resolveDrain` and `drainPromise` are non-null, and
`resolveCount` counts how many times `resolveDrain()` has been invoked
(line 73). -/
structure PoolState where
  limit : Nat
  running : List Nat
  queue : List Nat
  drainRequested : Bool
  resolveCount : Nat
deriving DecidableEq, Repr

/-- `startTask` (promise-pool.ts lines 57-60): the promise has already been
created; it is merely added to the tracking set. -/
def startTask (p : PoolState) (id : Nat) : PoolState :=
  { p with running := p.running ++ [id] }

/-- The `while` loop of `processQueue` (promise-pool.ts lines 63-69),
with fuel: each iteration shifts one queued thunk and tracks its promise.
The loop runs at most `queue.length` times, so that much fuel is exact. -/
def processQueueLoop : Nat → PoolState → PoolState
  | 0, p => p
  | fuel + 1, p =>
    if p.running.length < p.limit then
      match p.queue with
      | [] => p
      | id :: rest => processQueueLoop fuel (startTask { p with queue := rest } id)
    else p

/-- The drain-resolution check at the end of `processQueue` (promise-pool.ts
lines 72-76): when the running set and the queue are both empty and a
drain resolver exists, it is called once and both `resolveDrain` and
`drainPromise` are reset to null. -/
def resolveDrainCheck (p : PoolState) : PoolState :=
  if p.running = [] ∧ p.queue = [] ∧ p.drainRequested then
    { p with drainRequested := false, resolveCount := p.resolveCount + 1 }
  else p

/-- `processQueue` (promise-pool.ts lines 62-77): promote queued tasks
while a slot is free, then check whether the drain barrier resolves. -/
def processQueue (p : PoolState) : PoolState :=
  resolveDrainCheck (processQueueLoop p.queue.length p)

/-- The whole-simulation state: the pool object plus the surrounding
JavaScript event loop.  `active` lists the tasks whose bodies are
currently executing, as `(id, completionTime, fails)`; `maxActive`
records the largest number of simultaneously executing task bodies
observed at any instant.  `errorLog` lists, in order, the ids for which
the `console.error` in `wrappedTaskExecution` (line 34) fired;
`completionOrder` lists task ids in the order their bodies finished;
`drainImmediate` records, per call to `drain()`, whether it returned an
already-resolved promise (line 85). -/
structure SimState where
  pool : PoolState
  active : List (Nat × Nat × Bool)
  nextId : Nat
  maxActive : Nat
  errorLog : List Nat
  completionOrder : List Nat
  drainImmediate : List Bool
deriving DecidableEq, Repr

/-- The initial simulator state for a pool built with `limit`
(promise-pool.ts lines 10-17, after the constructor check). -/
def initSim (limit : Nat) : SimState :=
  { pool := { limit := limit, running := [], queue := [], drainRequested := false,
              resolveCount := 0 }
    active := [], nextId := 0, maxActive := 0, errorLog := [],
    completionOrder := [], drainImmediate := [] }

/-- `PromisePool.add` (promise-pool.ts lines 27-54), called at simulated
time 0.  Line 45 invokes `wrappedTaskExecution()` unconditionally: calling
an async function runs its body at once up to the first `await`, and that
first statement is `await task()` (line 30), which starts the actual task
immediately.  The task body is therefore executing from the moment `add`
is called, whatever the occupancy of the pool, and the new entry joins
`active` here.  Afterwards (lines 47-53) the promise is either tracked in
`runningTasks` (when a slot is free) or a thunk returning this
already-running promise is pushed onto `taskQueue`. -/
def poolAdd (s : SimState) (t : PoolTask) : SimState :=
  let id := s.nextId
  let active := s.active ++ [(id, t.dur, t.fails)]
  let pool :=
    if s.pool.running.length < s.pool.limit then startTask s.pool id
    else { s.pool with queue := s.pool.queue ++ [id] }
  { s with pool := pool, active := active, nextId := id + 1,
           maxActive := max s.maxActive active.length }

/-- `PromisePool.drain` (promise-pool.ts lines 83-94): if nothing is
running or queued the call resolves immediately; otherwise the shared
`drainPromise` is created on first request and every caller receives that
same promise. -/
def poolDrain (s : SimState) : SimState :=
  if s.pool.running = [] ∧ s.pool.queue = [] then
    { s with drainImmediate := s.drainImmediate ++ [true] }
  else
    let pool :=
      if s.pool.drainRequested then s.pool
      else { s.pool with drainRequested := true }
    { s with pool := pool, drainImmediate := s.drainImmediate ++ [false] }

/-- Select the executing task with the earliest completion time; ties go
to the task that was started earlier (its entry appears earlier in
`active`). -/
def pickMinAux (best : Nat × Nat × Bool) : List (Nat × Nat × Bool) → Nat × Nat × Bool
  | [] => best
  | e :: rest => pickMinAux (if e.2.1 < best.2.1 then e else best) rest

/-- First executing task to complete, if any. -/
def pickMin : List (Nat × Nat × Bool) → Option (Nat × Nat × Bool)
  | [] => none
  | e :: rest => some (pickMinAux e rest)

/-- One completion event: the continuation of `wrappedTaskExecution`
(promise-pool.ts lines 28-41) for the executing task that finishes next.
If the task rejected, the `catch` logs one error (line 34).  The `finally`
(lines 35-40) then deletes this promise from `runningTasks` — a no-op for
a promise that was never tracked, exactly as `Set.delete` — and calls
`processQueue`. -/
def completeOne (s : SimState) : SimState :=
  match pickMin s.active with
  | none => s
  | some (id, _, fails) =>
    let active := s.active.filter (fun e => e.1 ≠ id)
    let errorLog := if fails then s.errorLog ++ [id] else s.errorLog
    let pool := processQueue { s.pool with running := s.pool.running.erase id }
    { s with active := active, errorLog := errorLog, pool := pool,
             completionOrder := s.completionOrder ++ [id] }

/-- Run completion events until no task body is still executing.  Each
event removes exactly one entry from `active`, so `active.length` is
exact fuel. -/
def runCompletions : Nat → SimState → SimState
  | 0, s => s
  | fuel + 1, s =>
    if s.active = [] then s else runCompletions fuel (completeOne s)

/-- A synchronous driver action at time 0: submit a task or call
`drain()`.  This mirrors the driver in translate_ds.ts, whose `add` calls
(line 441) and final `drain` (line 479) all happen before any task
settles. -/
inductive PoolCmd where
  | add (dur : Nat) (fails : Bool)
  | drain
deriving DecidableEq, Repr

/-- Execute the driver actions in order. -/
def execCmds : SimState → List PoolCmd → SimState
  | s, [] => s
  | s, PoolCmd.add dur fails :: rest => execCmds (poolAdd s ⟨dur, fails⟩) rest
  | s, PoolCmd.drain :: rest => execCmds (poolDrain s) rest

/-- Full run of the pool on a driver script: all submissions and drain
calls happen synchronously at time 0, then the event loop delivers every
completion in time order. -/
def runPool (limit : Nat) (cmds : List PoolCmd) : SimState :=
  let s := execCmds (initSim limit) cmds
  runCompletions s.active.length s

/-! ## Constructor check (promise-pool.ts lines 10-17)

The constructor guard receives a JavaScript `number`, which may be
fractional; it is embedded over `Rat`. -/

/-- The error message thrown by the `PromisePool` constructor
(promise-pool.ts line 12). -/
def invalidConfigurationMsg : String := "Concurrency limit must be a positive number."

/-- The constructor guard of `PromisePool` (promise-pool.ts lines 10-17):
it throws exactly when `concurrencyLimit <= 0`; no integrality check is
performed. -/
def construct (concurrencyLimit : Rat) : Except String Unit :=
  if concurrencyLimit ≤ 0 then Except.error invalidConfigurationMsg
  else Except.ok ()

/-- The spec-side notion of a positive integer limit. -/
def isPositiveInteger (q : Rat) : Prop := 0 < q ∧ ∃ n : ℤ, q = (n : Rat)

/-! ## Retry governor (translate_ds.ts lines 53-74)

`translateChapterWithRetry` wraps `translateChapter` in a `for` loop over
`attempt = 1 .. maxAttempts`.  The wrapped call is an external network
operation, so it is a parameter: `op n` is the outcome of attempt `n`.
The observable behaviour is the returned value or thrown error, the
number of attempts actually performed, and the list of backoff delays
awaited (line 69: `setTimeout(res, 5000 * attempt)`). -/

instance : DecidableEq (Except String String) := fun a b =>
  match a, b with
  | Except.ok x, Except.ok y =>
    if h : x = y then isTrue (by rw [h]) else isFalse (by intro hc; cases hc; exact h rfl)
  | Except.error x, Except.error y =>
    if h : x = y then isTrue (by rw [h]) else isFalse (by intro hc; cases hc; exact h rfl)
  | Except.ok _, Except.error _ => isFalse (by intro hc; cases hc)
  | Except.error _, Except.ok _ => isFalse (by intro hc; cases hc)

/-- Observable outcome of one run of the retry loop. -/
structure RetryResult where
  result : Except String String
  attempts : Nat
  delays : List Nat
deriving DecidableEq, Repr

/-- The terminal error thrown when every attempt failed
(translate_ds.ts line 73).  It is a fixed message carrying no
information about the original failure. -/
def allRetriesFailedMsg : String := "❌ All retries failed."

/-- The loop body of `translateChapterWithRetry` (translate_ds.ts lines
61-71), structurally recursing on the remaining attempts: `attempt` is
the current 1-based counter and `remaining = maxAttempts - attempt + 1`.
On success the result is returned at once; on failure the catch block
awaits `5000 * attempt` milliseconds and the loop continues.  When the
loop exhausts, line 73 throws the fixed error. -/
def retryGo (op : Nat → Except String String) (attempt : Nat) : Nat → RetryResult
  | 0 => ⟨Except.error allRetriesFailedMsg, 0, []⟩
  | remaining + 1 =>
    match op attempt with
    | Except.ok v => ⟨Except.ok v, 1, []⟩
    | Except.error _ =>
      let r := retryGo op (attempt + 1) remaining
      ⟨r.result, r.attempts + 1, 5000 * attempt :: r.delays⟩

/-- `translateChapterWithRetry` (translate_ds.ts lines 53-74): run the
attempt loop from `attempt = 1` with `maxAttempts` iterations available
(the source default is 3). -/
def translateChapterWithRetry (op : Nat → Except String String)
    (maxAttempts : Nat) : RetryResult :=
  retryGo op 1 maxAttempts

/-- Drop the leading whitespace characters of a character list. -/
def dropLeadingWs : List Char → List Char
  | [] => []
  | c :: rest => if c.isWhitespace then dropLeadingWs rest else c :: rest

/-- The JavaScript string method `trim`: remove leading and trailing
whitespace.  Defined by structural recursion so that concrete instances
evaluate. -/
def jsTrim (s : String) : String :=
  ⟨(dropLeadingWs (dropLeadingWs s.toList).reverse).reverse⟩

/-! ## Streaming invoker (translate_ds.ts lines 163-248)

The `for await` loop over the SSE stream is embedded over a list of
structured lines.  A line is blank (skipped, line 186), the end marker
`data: [DONE]` (breaks, line 189), a `data:` line whose JSON parse yields
a delta token (possibly empty, line 197), a `data:` line that fails to
parse (warned and skipped, line 206), or a non-`data:` line (warned and
skipped, line 210). -/

inductive StreamLine where
  | blank
  | doneMarker
  | payload (token : String)
  | malformed (raw : String)
  | unexpected (raw : String)
deriving DecidableEq, Repr

/-- The accumulation loop of `translateChapter` (translate_ds.ts lines
185-212): `acc` is `finalOutput`, each payload token is appended, and the
loop stops at the end marker. -/
def streamLoop (acc : String) : List StreamLine → String
  | [] => acc
  | StreamLine.doneMarker :: _ => acc
  | StreamLine.blank :: rest => streamLoop acc rest
  | StreamLine.payload t :: rest => streamLoop (acc ++ t) rest
  | StreamLine.malformed _ :: rest => streamLoop acc rest
  | StreamLine.unexpected _ :: rest => streamLoop acc rest

/-- `translateChapter` on a normally terminating stream (translate_ds.ts
lines 163-248): accumulate the tokens, warn — without failing — when the
accumulated text trims to nothing (lines 244-246), and return
`finalOutput` as is (line 248).  The second component records whether the
empty-result warning fired. -/
def translateChapter (lines : List StreamLine) : String × Bool :=
  let finalOutput := streamLoop "" lines
  (finalOutput, jsTrim finalOutput == "")

/-- `extractTranslation` (translate_ds.ts lines 46-51): a direct
pass-through with trim. -/
def extractTranslation (content : String) : String := jsTrim content

/-- Modelled from the spec (section 4.3, "Returns the full accumulated
text"): the concatenation of every fragment payload up to the end-of-
stream marker.  This is the spec-side description of what the invoker
accumulates, used to compare against `translateChapter`. -/
def payloadConcat : List StreamLine → String
  | [] => ""
  | StreamLine.doneMarker :: _ => ""
  | StreamLine.payload t :: rest => t ++ payloadConcat rest
  | StreamLine.blank :: rest => payloadConcat rest
  | StreamLine.malformed _ :: rest => payloadConcat rest
  | StreamLine.unexpected _ :: rest => payloadConcat rest

/-! ## Work-unit scan of `processSeries` (translate_ds.ts lines 410-442)

For every discovered `.txt` file the loop derives the output path, applies
the chapter-range filter, then checks whether the completion artifact
already exists (`fs.access`, line 434) and only otherwise increments the
counter and submits the translation task to the pool (line 441).  The
filesystem is embedded as a predicate on output file names. -/

/-- Replace the first occurrence of `pat` in `s` by `repl`, as the
JavaScript string method `replace` with a plain-string pattern does
(translate_ds.ts line 412: `file.replace(".txt", ".translated.md")`). -/
def replaceFirstAux (pat repl : List Char) : List Char → List Char
  | [] => []
  | c :: rest =>
    if pat.isPrefixOf (c :: rest) then repl ++ (c :: rest).drop pat.length
    else c :: replaceFirstAux pat repl rest

/-- String wrapper for `replaceFirstAux`; when the pattern does not occur
the string is unchanged, as in JavaScript. -/
def replaceFirst (s pat repl : String) : String :=
  ⟨replaceFirstAux pat.toList repl.toList s.toList⟩

/-- The output artifact name of an input chapter file
(translate_ds.ts line 412). -/
def outputFileNameOf (file : String) : String :=
  replaceFirst file ".txt" ".translated.md"

/-- Tail of the regex `^(\d{4})\s*-` after the four digits: zero or more
whitespace characters followed by a dash. -/
def spacesThenDash : List Char → Bool
  | [] => false
  | c :: rest =>
    if c = '-' then true
    else if c.isWhitespace then spacesThenDash rest else false

/-- The match of `file` against the anchored pattern `^(\d{4})\s*-`
followed by `parseInt` (translate_ds.ts
lines 417-419): the name must start with exactly four digits, then
optional whitespace, then a dash; the captured group parses to the
chapter number.  A fifth leading digit makes the anchored match fail,
since `\s*` cannot absorb it. -/
def parseChapterNum (file : String) : Option Nat :=
  match file.toList with
  | d1 :: d2 :: d3 :: d4 :: rest =>
    if d1.isDigit ∧ d2.isDigit ∧ d3.isDigit ∧ d4.isDigit ∧ spacesThenDash rest then
      some ((((d1.toNat - 48) * 10 + (d2.toNat - 48)) * 10 + (d3.toNat - 48)) * 10 +
        (d4.toNat - 48))
    else none
  | _ => none

/-- The optional inclusive chapter bounds of a series configuration
(`translateChapterMin`, `translateChapterMax`). -/
structure RangeConfig where
  translateChapterMin : Option Nat
  translateChapterMax : Option Nat
deriving DecidableEq, Repr

/-- The chapter-range filter of `processSeries` (translate_ds.ts lines
416-430): when no bound is configured the block is skipped entirely;
otherwise a file whose chapter number cannot be parsed is skipped with a
log, and a parsed number is skipped when it lies below the configured
minimum or above the configured maximum. -/
def passesRangeFilter (cfg : RangeConfig) (file : String) : Bool :=
  match cfg.translateChapterMin, cfg.translateChapterMax with
  | none, none => true
  | mn, mx =>
    match parseChapterNum file with
    | none => false
    | some n =>
      !((match mn with | some m => decide (n < m) | none => false) ||
        (match mx with | some m => decide (m < n) | none => false))

/-- The scan loop of `processSeries` (translate_ds.ts lines 410-442):
returns, in order, the files submitted to the pool.  `artifactExists`
embeds the `fs.access` probe on the derived output path (line 434); a hit
makes the loop `continue` before any task is created, so the expensive
work (`createTranslationTask`, which performs the network call) is never
reached for that unit. -/
def processSeries (cfg : RangeConfig) (files : List String)
    (artifactExists : String → Bool) : List String :=
  match files with
  | [] => []
  | file :: rest =>
    if passesRangeFilter cfg file ∧ ¬artifactExists (outputFileNameOf file) then
      file :: processSeries cfg rest artifactExists
    else processSeries cfg rest artifactExists

/-- `createTranslationTask` (translate_ds.ts lines 332-386), with the
network interaction abstracted by the attempt-outcome function `op`:
empty input is skipped with no output file (lines 344-349); in dry-run
mode nothing is written (lines 352-358); otherwise
`translateChapterWithRetry` runs with its default of 3 attempts, a thrown
terminal error is caught and logged with no file saved (lines 381-385),
an output empty after trimming skips file creation (lines 365-368), and
otherwise the trimmed text is written (line 378).  The returned value is
the artifact content written, if any. -/
def createTranslationTask (op : Nat → Except String String)
    (chineseText : String) (dryRun : Bool) : Option String :=
  if jsTrim chineseText = "" then none
  else if dryRun then none
  else
    match (translateChapterWithRetry op 3).result with
    | Except.error _ => none
    | Except.ok full =>
      let trimmed := extractTranslation full
      if trimmed = "" then none else some trimmed

/-! ## Helper lemmas -/

/-- When every attempt fails, the retry loop performs every remaining
attempt, awaits the backoff delay `5000 * attempt` after each failed
attempt — the final one included — and ends with the fixed terminal
error. -/
theorem retryGo_alwaysFail (op : Nat → Except String String)
    (h : ∀ n, ∃ e, op n = Except.error e) :
    ∀ remaining attempt, retryGo op attempt remaining =
      ⟨Except.error allRetriesFailedMsg, remaining,
        (List.range remaining).map (fun i => 5000 * (attempt + i))⟩ := by
  intro remaining
  induction remaining with
  | zero => intro attempt; simp [retryGo]
  | succ r ih =>
    intro attempt
    obtain ⟨e, he⟩ := h attempt
    rw [retryGo, he, ih (attempt + 1)]
    simp [List.range_succ_eq_map, List.map_map, Function.comp]
    intro a _
    omega

/-- The stream accumulation loop appends exactly the payload tokens of
the stream, in order, to the accumulator. -/
theorem streamLoop_eq_append (lines : List StreamLine) :
    ∀ acc, streamLoop acc lines = acc ++ payloadConcat lines := by
  induction lines with
  | nil => intro acc; simp [streamLoop, payloadConcat]
  | cons l rest ih =>
    cases l <;> intro acc <;>
      simp [streamLoop, payloadConcat, ih, String.append_assoc]

/-! ## Claim theorems -/

/-- Claim C1 (code bug, evaluation at the failing input): the claim says
that with limit K no more than K task bodies ever execute simultaneously
and that a task submitted while K tasks run waits for promotion.  In the
code, `add` invokes `wrappedTaskExecution()` before consulting the
occupancy (promise-pool.ts line 45), so the task body starts at
submission regardless.  With limit 1 and two submitted tasks of duration
5, two task bodies execute simultaneously. -/
theorem concurrency_ceiling_violation_eval :
    (runPool 1 [PoolCmd.add 5 false, PoolCmd.add 5 false]).pool.limit = 1 ∧
    (runPool 1 [PoolCmd.add 5 false, PoolCmd.add 5 false]).maxActive = 2 := by
  decide

/-- Claim C2 (code bug, evaluation at the failing input): for limit 2 and
durations 100, 120, 30, 40, 20 the claim expects completion order
[1, 2, 3, 5, 4] (task ids [0, 1, 2, 4, 3]).  Because every task body
starts at submission, completion order is by duration alone:
[5, 3, 4, 1, 2] (task ids [4, 2, 3, 0, 1]). -/
theorem completion_order_violation_eval :
    (runPool 2 [PoolCmd.add 100 false, PoolCmd.add 120 false, PoolCmd.add 30 false,
      PoolCmd.add 40 false, PoolCmd.add 20 false]).completionOrder = [4, 2, 3, 0, 1] ∧
    ([4, 2, 3, 0, 1] : List Nat) ≠ [0, 1, 2, 4, 3] := by
  decide

/-- Claim C3 (code bug, evaluation at the failing input): with limit 1,
tasks of durations 100 and 10 and a `drain()` call, the queued task
settles before being promoted; on promotion its already-settled promise
enters `runningTasks` and is never removed, so even though both task
bodies have completed (`active = []`, both ids in `completionOrder`), the
drain barrier is never resolved (`resolveCount = 0`) and the stale
promise stays tracked.  The claim says `drain()` resolves once every
running and queued task has completed. -/
theorem drain_unresolved_violation_eval :
    (runPool 1 [PoolCmd.add 100 false, PoolCmd.add 10 false, PoolCmd.drain]).active = [] ∧
    (runPool 1 [PoolCmd.add 100 false, PoolCmd.add 10 false,
      PoolCmd.drain]).completionOrder = [1, 0] ∧
    (runPool 1 [PoolCmd.add 100 false, PoolCmd.add 10 false,
      PoolCmd.drain]).pool.resolveCount = 0 ∧
    (runPool 1 [PoolCmd.add 100 false, PoolCmd.add 10 false,
      PoolCmd.drain]).pool.drainRequested = true ∧
    (runPool 1 [PoolCmd.add 100 false, PoolCmd.add 10 false,
      PoolCmd.drain]).pool.running = [1] := by
  decide

/-- Claim C4 (code bug, evaluation at the failing input): failure
isolation itself holds — in both runs below every task executes and
exactly one error is logged for the failing task, which aborts nothing —
and in the unsaturated run (limit 3, three tasks, one failing) `drain()`
resolves normally (`resolveCount = 1`).  But in the saturated run
(limit 1, a failing task of duration 100 and a succeeding one of
duration 10, then `drain()`), both tasks execute and the error is logged,
yet `drain()` never resolves, contradicting the claim that it still
resolves normally for every such pool. -/
theorem failure_isolation_drain_violation_eval :
    (runPool 1 [PoolCmd.add 100 true, PoolCmd.add 10 false,
      PoolCmd.drain]).completionOrder = [1, 0] ∧
    (runPool 1 [PoolCmd.add 100 true, PoolCmd.add 10 false,
      PoolCmd.drain]).errorLog = [0] ∧
    (runPool 1 [PoolCmd.add 100 true, PoolCmd.add 10 false,
      PoolCmd.drain]).pool.resolveCount = 0 ∧
    (runPool 3 [PoolCmd.add 100 true, PoolCmd.add 50 false, PoolCmd.add 20 false,
      PoolCmd.drain]).completionOrder = [2, 1, 0] ∧
    (runPool 3 [PoolCmd.add 100 true, PoolCmd.add 50 false, PoolCmd.add 20 false,
      PoolCmd.drain]).errorLog = [0] ∧
    (runPool 3 [PoolCmd.add 100 true, PoolCmd.add 50 false, PoolCmd.add 20 false,
      PoolCmd.drain]).pool.resolveCount = 1 := by
  decide

/-- Claim C5 (counterexample): the terminal error of the retry wrapper
does not wrap or identify the original failure cause — two operations
failing with different causes produce bit-identical outcomes, both
carrying only the fixed message. -/
theorem retry_error_cause_counterexample :
    (translateChapterWithRetry (fun _ => Except.error ("connection reset")) 3).result
      = Except.error allRetriesFailedMsg ∧
    translateChapterWithRetry (fun _ => Except.error ("connection reset")) 3
      = translateChapterWithRetry (fun _ => Except.error ("HTTP 500")) 3 ∧
    ("connection reset" : String) ≠ "HTTP 500" := by
  decide

/-- Claim C5 (amended): for an always-failing operation the retry wrapper
performs exactly `maxAttempts` attempts (so never a 4th when the maximum
is 3) and then fails with the fixed generic all-retries-failed error,
which does not carry the original cause; the failure is terminal for the
work unit — `createTranslationTask` writes no completion artifact — and
nothing propagates beyond the task. -/
theorem retry_exhaustion_amended (op : Nat → Except String String)
    (h : ∀ n, ∃ e, op n = Except.error e) (m : Nat) :
    (translateChapterWithRetry op m).attempts = m ∧
    (translateChapterWithRetry op m).result = Except.error allRetriesFailedMsg ∧
    ∀ text, createTranslationTask op text false = none := by
  have hrun := retryGo_alwaysFail op h m 1
  have hrun3 := retryGo_alwaysFail op h 3 1
  refine ⟨?_, ?_, ?_⟩
  · unfold translateChapterWithRetry; rw [hrun]
  · unfold translateChapterWithRetry; rw [hrun]
  · intro text
    unfold createTranslationTask translateChapterWithRetry
    rw [hrun3]
    split <;> simp

/-- Witness for C5 (amended), at a concrete always-failing operation. -/
theorem retry_exhaustion_amended_witness :
    (translateChapterWithRetry (fun _ => Except.error ("E")) 3).attempts = 3 ∧
    (translateChapterWithRetry (fun _ => Except.error ("E")) 3).result
      = Except.error allRetriesFailedMsg ∧
    createTranslationTask (fun _ => Except.error ("E")) ("source text") false = none := by
  have h := retry_exhaustion_amended (fun _ => Except.error ("E"))
    (fun n => ⟨("E"), rfl⟩) 3
  exact ⟨h.1, h.2.1, h.2.2 ("source text")⟩

/-- Claim C6 (confirmed): an operation failing on attempts 1 and 2 and
succeeding on attempt 3 makes the retry wrapper return the success value
after exactly two backoff delays, `5000 * 1` then `5000 * 2` — each
strictly greater than the previous and proportional to the attempt
number. -/
theorem retry_backoff_third_attempt_success (op : Nat → Except String String)
    (v e1 e2 : String)
    (h1 : op 1 = Except.error e1) (h2 : op 2 = Except.error e2)
    (h3 : op 3 = Except.ok v) :
    (translateChapterWithRetry op 3).result = Except.ok v ∧
    (translateChapterWithRetry op 3).delays = [5000 * 1, 5000 * 2] ∧
    (translateChapterWithRetry op 3).delays.length = 2 ∧
    List.Chain' (fun a b => a < b) (translateChapterWithRetry op 3).delays := by
  have hrun : translateChapterWithRetry op 3 =
      ⟨Except.ok v, 3, [5000 * 1, 5000 * 2]⟩ := by
    unfold translateChapterWithRetry
    rw [retryGo, h1, retryGo, h2, retryGo, h3]
  rw [hrun]
  refine ⟨rfl, rfl, rfl, ?_⟩
  simp [List.chain'_cons]

/-- Witness for C6, at a concrete operation succeeding on its third
attempt. -/
theorem retry_backoff_third_attempt_success_witness :
    (translateChapterWithRetry
      (fun n => if n = 3 then Except.ok ("done") else Except.error ("boom")) 3).result
        = Except.ok ("done") ∧
    (translateChapterWithRetry
      (fun n => if n = 3 then Except.ok ("done") else Except.error ("boom")) 3).delays
        = [5000 * 1, 5000 * 2] ∧
    (translateChapterWithRetry
      (fun n => if n = 3 then Except.ok ("done") else Except.error ("boom")) 3).delays.length
        = 2 ∧
    List.Chain' (fun a b => a < b)
      (translateChapterWithRetry
        (fun n => if n = 3 then Except.ok ("done") else Except.error ("boom")) 3).delays :=
  retry_backoff_third_attempt_success _ ("done") ("boom") ("boom")
    (by decide) (by decide) (by decide)

/-- Claim C7 (confirmed): a file is submitted to the pool by the scan of
`processSeries` exactly when it is a discovered input, passes the
chapter-range filter, and its completion artifact does not exist.  An
existing artifact therefore skips the unit before it is ever submitted —
and hence before any expensive work, which only happens inside submitted
tasks — and absence of the artifact is the only condition under which a
unit passing the range filter is processed, so a re-run processes exactly
the still-missing units. -/
theorem resumability_membership (cfg : RangeConfig) (files : List String)
    (artifactExists : String → Bool) (file : String) :
    file ∈ processSeries cfg files artifactExists ↔
      file ∈ files ∧ passesRangeFilter cfg file = true ∧
        artifactExists (outputFileNameOf file) = false := by
  induction files with
  | nil => simp [processSeries]
  | cons f rest ih =>
    rw [processSeries]
    by_cases hf : passesRangeFilter cfg f ∧ ¬ artifactExists (outputFileNameOf f)
    · rw [if_pos hf]
      simp only [List.mem_cons, ih]
      constructor
      · rintro (rfl | ⟨hm, h1, h2⟩)
        · exact ⟨Or.inl rfl, hf.1, by simpa using hf.2⟩
        · exact ⟨Or.inr hm, h1, h2⟩
      · rintro ⟨rfl | hm, h1, h2⟩
        · exact Or.inl rfl
        · exact Or.inr ⟨hm, h1, h2⟩
    · rw [if_neg hf]
      rw [ih]
      constructor
      · rintro ⟨hm, h1, h2⟩
        exact ⟨List.mem_cons_of_mem f hm, h1, h2⟩
      · rintro ⟨hmem, h1, h2⟩
        rcases List.mem_cons.mp hmem with rfl | hm
        · exact absurd ⟨h1, by simp [h2]⟩ hf
        · exact ⟨hm, h1, h2⟩

/-- Claim C8 (counterexample): the constructor accepts the non-integer
limit 1/2, although 1/2 is not a positive integer — the guard only
rejects `concurrencyLimit <= 0` and performs no integrality check. -/
theorem construct_accepts_half_counterexample :
    construct (1/2) = Except.ok () ∧ ¬ isPositiveInteger (1/2) := by
  constructor
  · norm_num [construct]
  · rintro ⟨hpos, n, hn⟩
    have h2 : (2 : Rat) * (n : Rat) = 1 := by rw [← hn]; norm_num
    have h3 : (2 * n : ℤ) = 1 := by exact_mod_cast h2
    omega

/-- Claim C8 (amended): construction fails with the invalid-configuration
error exactly when the limit is non-positive; every positive limit,
integer or not, is accepted. -/
theorem construct_error_iff_nonpositive (q : Rat) :
    construct q = Except.error invalidConfigurationMsg ↔ q ≤ 0 := by
  unfold construct
  split <;> simp_all

/-- Claim C9 (counterexample): on a stream with the single fragment
payload " hello ", `translateChapter` returns " hello " unchanged, which
differs from the trimmed text "hello" — the trim happens in the caller
via `extractTranslation`, not in `translateChapter`. -/
theorem translateChapter_untrimmed_counterexample :
    (translateChapter [StreamLine.payload (" hello ")]).1 = " hello " ∧
    jsTrim (" hello ") = "hello" ∧
    (" hello " : String) ≠ "hello" := by
  decide

/-- Claim C9 (amended): for every normally terminating stream,
`translateChapter` returns exactly the untrimmed concatenation of the
fragment payloads; the trim of leading and trailing whitespace is applied
by the caller through `extractTranslation`; and an all-whitespace
accumulated result is still returned as a value, with the empty-result
warning logged exactly in that case and no error thrown. -/
theorem translateChapter_accumulation_amended (lines : List StreamLine) :
    (translateChapter lines).1 = payloadConcat lines ∧
    extractTranslation (translateChapter lines).1 = jsTrim (payloadConcat lines) ∧
    ((translateChapter lines).2 = true ↔ jsTrim (payloadConcat lines) = "") := by
  have h1 : (translateChapter lines).1 = payloadConcat lines := by
    unfold translateChapter
    simpa using streamLoop_eq_append lines ""
  refine ⟨h1, ?_, ?_⟩
  · rw [extractTranslation, h1]
  · unfold translateChapter
    rw [streamLoop_eq_append lines ""]
    simp

/-- Claim C10 (confirmed): when every attempt fails, the retry wrapper
awaits a backoff delay after the final failed attempt as well —
`maxAttempts` delays in total, the last being `5000 * maxAttempts` —
before raising the terminal error. -/
theorem retry_delays_after_final_attempt (op : Nat → Except String String)
    (h : ∀ n, ∃ e, op n = Except.error e) (m : Nat) (hm : 0 < m) :
    (translateChapterWithRetry op m).delays.length = m ∧
    (translateChapterWithRetry op m).delays.getLast? = some (5000 * m) ∧
    (translateChapterWithRetry op m).result = Except.error allRetriesFailedMsg := by
  have hrun := retryGo_alwaysFail op h m 1
  unfold translateChapterWithRetry
  rw [hrun]
  refine ⟨by simp, ?_, rfl⟩
  obtain ⟨k, rfl⟩ := Nat.exists_eq_add_of_lt hm
  rw [List.range_succ, List.map_append]
  simp
  omega

/-- Witness for C10, at a concrete always-failing operation with the
default maximum of 3 attempts. -/
theorem retry_delays_after_final_attempt_witness :
    (translateChapterWithRetry (fun _ => Except.error ("E")) 3).delays.length = 3 ∧
    (translateChapterWithRetry (fun _ => Except.error ("E")) 3).delays.getLast?
      = some (5000 * 3) ∧
    (translateChapterWithRetry (fun _ => Except.error ("E")) 3).result
      = Except.error allRetriesFailedMsg :=
  retry_delays_after_final_attempt (fun _ => Except.error ("E"))
    (fun n => ⟨("E"), rfl⟩) 3 (by decide)

end WebnovelTL
